import Mathlib

/-!
Verification of the pikelet syntax/diagnostics scaffolding.

Source files embedded here:
- `crates/pikelet-syntax/src/concrete.rs` (concrete syntax tree and the
  `span` methods of `Term`, `Item`, `Pattern`, `Literal`)
- `crates/pikelet-concrete/src/elaborate/errors.rs` (`InternalError`,
  `TypeError`, their `to_diagnostic` conversions, the `failure`
  `Display` strings, and the `From` conversions)

External crates (`codespan`, `codespan_reporting`, `moniker`) and
repository code not present under `src/` (`pikelet-core`'s `NbeError`
and `Label`, the `raw` syntax literals, the literal formats) are
modelled minimally; their `Display`/`Debug` renderings are passed in as
explicit formatting functions, since the pretty-printers are not part
of the embedded sources.
-/

set_option maxHeartbeats 1000000

/-- A byte position in the source text (external `codespan` crate's
`ByteIndex`). -/
abbrev ByteIndex := Nat

/-- A byte span in the source text (external `codespan` crate).  The
source's `span.end()` is rendered as the field `stop`, because `end` is
a reserved word here. -/
structure ByteSpan where
  start : Nat
  stop : Nat
  deriving Repr, DecidableEq

/-- `ByteSpan::new` (external `codespan` crate): swaps the two ends when
they are given out of order. -/
def ByteSpan.new (a b : Nat) : ByteSpan :=
  if b < a then ⟨b, a⟩ else ⟨a, b⟩

/-- `Span::to` (external `codespan` crate): the span from the start of
`s` to the end of `t`. -/
def ByteSpan.to (s t : ByteSpan) : ByteSpan :=
  ByteSpan.new s.start t.stop

/-- `outer` encloses `inner`: `inner` starts no earlier and stops no
later than `outer`. -/
def ByteSpan.encloses (outer inner : ByteSpan) : Prop :=
  outer.start ≤ inner.start ∧ inner.stop ≤ outer.stop

instance (outer inner : ByteSpan) : Decidable (ByteSpan.encloses outer inner) := by
  unfold ByteSpan.encloses
  infer_instance

/-- A span is well formed when it starts no later than it stops. -/
def ByteSpan.wf (s : ByteSpan) : Prop :=
  s.start ≤ s.stop

instance (s : ByteSpan) : Decidable (ByteSpan.wf s) := by
  unfold ByteSpan.wf
  infer_instance

/-- Modelled from the spec: the integer literal format
(decimal/hex/binary), preserved only for faithful redisplay, never
affecting semantics (`pikelet-syntax`'s `IntFormat`, not under `src/`). -/
inductive IntFormat
  | Bin
  | Oct
  | Dec
  | Hex
  deriving Repr, DecidableEq

/-- Modelled from the spec: the float literal format (with/without
exponent), preserved only for faithful redisplay (`pikelet-syntax`'s
`FloatFormat`, not under `src/`). -/
inductive FloatFormat
  | Dec
  deriving Repr, DecidableEq

/-- A 64-bit float carried inertly by its bit pattern.  The embedded
code never computes with float values, it only stores and displays
them. -/
structure F64 where
  bits : Nat
  deriving Repr, DecidableEq

/-- Literals of the concrete syntax
(`crates/pikelet-syntax/src/concrete.rs`, `enum Literal`). -/
inductive Literal
  | String : ByteSpan → String → Literal
  | Char : ByteSpan → Char → Literal
  | Int : ByteSpan → Nat → IntFormat → Literal
  | Float : ByteSpan → F64 → FloatFormat → Literal
  deriving Repr, DecidableEq

/-- `Literal::span`: every literal stores its span directly. -/
def Literal.span : Literal → ByteSpan
  | .String sp _ => sp
  | .Char sp _ => sp
  | .Int sp _ _ => sp
  | .Float sp _ _ => sp

mutual
/-- Terms of the concrete syntax
(`crates/pikelet-syntax/src/concrete.rs`, `enum Term`).  `u32` and
`ByteIndex` fields become `Nat`, `u64` becomes `Nat`, `Vec` becomes
`List`, `Box` is implicit. -/
inductive Term
  | Parens : ByteSpan → Term → Term
  | Ann : Term → Term → Term
  | Universe : ByteSpan → Option Nat → Term
  | Literal : Literal → Term
  | ArrayIntro : ByteSpan → List Term → Term
  | Hole : ByteSpan → Term
  | Name : ByteSpan → String → Option Nat → Term
  | Import : ByteSpan → ByteSpan → String → Term
  | FunType : ByteIndex → List (List (ByteIndex × String) × Term) → Term → Term
  | FunArrow : Term → Term → Term
  | FunIntro : ByteIndex → List (List (ByteIndex × String) × Option Term) → Term → Term
  | FunApp : Term → List Term → Term
  | Let : ByteIndex → List Item → Term → Term
  | Where : Term → List Item → ByteIndex → Term
  | If : ByteIndex → Term → Term → Term → Term
  | Case : ByteSpan → Term → List (Pattern × Term) → Term
  | RecordType : ByteSpan → List RecordTypeField → Term
  | RecordIntro : ByteSpan → List RecordField → Term
  | RecordProj : ByteSpan → Term → ByteIndex → String → Option Nat → Term
  | Error : ByteSpan → Term

/-- Top-level items within a module
(`crates/pikelet-syntax/src/concrete.rs`, `enum Item`). -/
inductive Item
  | Declaration : (ByteIndex × String) → Term → Item
  | Definition :
      (ByteIndex × String) → List (List (ByteIndex × String) × Option Term) →
        Option Term → Term → Item
  | Error : ByteSpan → Item

/-- A field of a record type (`struct RecordTypeField`): label, optional
binder, annotation. -/
inductive RecordTypeField
  | mk : (ByteIndex × String) → Option (ByteIndex × String) → Term → RecordTypeField

/-- A field of a record introduction (`enum RecordField`). -/
inductive RecordField
  | Punned : (ByteIndex × String) → Option Nat → RecordField
  | Explicit :
      (ByteIndex × String) → List (List (ByteIndex × String) × Option Term) →
        Option Term → Term → RecordField

/-- Patterns (`crates/pikelet-syntax/src/concrete.rs`, `enum Pattern`). -/
inductive Pattern
  | Parens : ByteSpan → Pattern → Pattern
  | Ann : Pattern → Term → Pattern
  | Literal : Literal → Pattern
  | Name : ByteSpan → String → Option Nat → Pattern
  | Error : ByteSpan → Pattern
end

mutual
/-- `Term::span`.  The result is an `Option` because the `FunApp` arm
calls `arg.last().unwrap()`, which panics when the argument vector is
empty; `none` models that panic.  Every other arm mirrors the source
match arm for arm. -/
def Term.span : Term → Option ByteSpan
  | .Parens sp _ => some sp
  | .Universe sp _ => some sp
  | .Hole sp => some sp
  | .Name sp _ _ => some sp
  | .Import sp _ _ => some sp
  | .Case sp _ _ => some sp
  | .RecordType sp _ => some sp
  | .RecordIntro sp _ => some sp
  | .RecordProj sp _ _ _ _ => some sp
  | .ArrayIntro sp _ => some sp
  | .Error sp => some sp
  | .Literal lit => some lit.span
  | .FunType start _ body =>
      match Term.span body with
      | some sb => some (ByteSpan.new start sb.stop)
      | none => none
  | .FunIntro start _ body =>
      match Term.span body with
      | some sb => some (ByteSpan.new start sb.stop)
      | none => none
  | .Let start _ body =>
      match Term.span body with
      | some sb => some (ByteSpan.new start sb.stop)
      | none => none
  | .If start _ _ body =>
      match Term.span body with
      | some sb => some (ByteSpan.new start sb.stop)
      | none => none
  | .Where expr _ stop =>
      match Term.span expr with
      | some se => some (ByteSpan.new se.start stop)
      | none => none
  | .Ann t ty =>
      match Term.span t, Term.span ty with
      | some st, some sty => some (st.to sty)
      | _, _ => none
  | .FunArrow a b =>
      match Term.span a, Term.span b with
      | some sa, some sb => some (sa.to sb)
      | _, _ => none
  | .FunApp head args =>
      match Term.span head, Term.spanOfLast args with
      | some hs, some ls => some (hs.to ls)
      | _, _ => none

/-- The span of the last element of an argument vector
(`arg.last().unwrap().span()` in the `FunApp` arm); `none` models the
panic of `unwrap` on an empty vector. -/
def Term.spanOfLast : List Term → Option ByteSpan
  | [] => none
  | [t] => Term.span t
  | _ :: t :: ts => Term.spanOfLast (t :: ts)
end

/-- `Pattern::span`, mirrored arm for arm. -/
def Pattern.span : Pattern → Option ByteSpan
  | .Parens sp _ => some sp
  | .Name sp _ _ => some sp
  | .Error sp => some sp
  | .Literal lit => some lit.span
  | .Ann p ty =>
      match Pattern.span p, Term.span ty with
      | some sp, some st => some (sp.to st)
      | _, _ => none

/-- `Item::span`: both the declaration and the definition arm build
`ByteSpan::new(start, term.span().end())` where `start` is the name's
index and `term` is the annotation resp. the body. -/
def Item.span : Item → Option ByteSpan
  | .Declaration (start, _) ann =>
      match Term.span ann with
      | some sa => some (ByteSpan.new start sa.stop)
      | none => none
  | .Definition (start, _) _ _ body =>
      match Term.span body with
      | some sb => some (ByteSpan.new start sb.stop)
      | none => none
  | .Error sp => some sp

/-- Diagnostic severities (external `codespan_reporting` crate). -/
inductive Severity
  | Bug
  | Error
  | Warning
  | Note
  | Help
  deriving Repr, DecidableEq

/-- Label styles (external `codespan_reporting` crate). -/
inductive LabelStyle
  | Primary
  | Secondary
  deriving Repr, DecidableEq

/-- A labeled span (external `codespan_reporting` crate's `Label`). -/
structure Label where
  span : ByteSpan
  message : Option String
  style : LabelStyle
  deriving Repr, DecidableEq

/-- `Label::new_primary`: a primary label with no message. -/
def Label.new_primary (sp : ByteSpan) : Label :=
  ⟨sp, none, LabelStyle.Primary⟩

/-- `Label::new_secondary`: a secondary label with no message. -/
def Label.new_secondary (sp : ByteSpan) : Label :=
  ⟨sp, none, LabelStyle.Secondary⟩

/-- `Label::with_message`. -/
def Label.with_message (l : Label) (m : String) : Label :=
  ⟨l.span, some m, l.style⟩

/-- A renderable diagnostic (external `codespan_reporting` crate); the
unused `code` field is omitted. -/
structure Diagnostic where
  severity : Severity
  message : String
  labels : List Label
  deriving Repr, DecidableEq

/-- `Diagnostic::new_bug`: severity `Bug`, no labels yet. -/
def Diagnostic.new_bug (m : String) : Diagnostic :=
  ⟨Severity.Bug, m, []⟩

/-- `Diagnostic::new_error`: severity `Error`, no labels yet. -/
def Diagnostic.new_error (m : String) : Diagnostic :=
  ⟨Severity.Error, m, []⟩

/-- `Diagnostic::with_label`: appends one label, preserving order. -/
def Diagnostic.with_label (d : Diagnostic) (l : Label) : Diagnostic :=
  ⟨d.severity, d.message, d.labels ++ [l]⟩

/-- A free variable (external `moniker` crate's `FreeVar<String>`);
only its printable content matters to the embedded code. -/
structure FreeVar where
  ident : Nat
  hint : Option String
  deriving Repr, DecidableEq

/-- A binder (external `moniker` crate's `Binder<String>`, wrapping a
free variable). -/
structure Binder where
  free_var : FreeVar
  deriving Repr, DecidableEq

/-- A variable (external `moniker` crate's `Var<String>`): bound (by
de Bruijn position, with a name hint) or free. -/
inductive Var
  | Bound : Nat → Option String → Var
  | Free : FreeVar → Var
  deriving Repr, DecidableEq

/-- Modelled from the spec: the normalizer's error type
(`pikelet_core::nbe::NbeError`, not under `src/`); the diagnostics code
only stores and displays it, so its contents are kept opaque as a
message string. -/
structure NbeError where
  message : String
  deriving Repr, DecidableEq

/-- Modelled from the spec: a record field label
(`pikelet_core::syntax::Label`, not under `src/`), wrapping its name. -/
structure CoreLabel where
  name : String
  deriving Repr, DecidableEq

/-- Modelled from the spec: raw literals mirror concrete literals, with
spans and formats passed through unchanged by the desugarer
(`pikelet-concrete`'s `raw::Literal`, not under `src/`).  Only the
variant head is inspected by the embedded code. -/
inductive RawLiteral
  | String : ByteSpan → String → RawLiteral
  | Char : ByteSpan → Char → RawLiteral
  | Int : ByteSpan → Nat → IntFormat → RawLiteral
  | Float : ByteSpan → F64 → FloatFormat → RawLiteral
  deriving Repr, DecidableEq

/-- The `Display`/`Debug` renderings of values interpolated into error
messages.  The corresponding pretty-printers live outside the embedded
sources, so they are passed in explicitly; no theorem below depends on
their output. -/
structure Fmt where
  showVar : Var → String
  showBinder : Binder → String
  showFreeVar : FreeVar → String
  showNbe : NbeError → String
  showTerm : Term → String
  showRawLiteral : RawLiteral → String
  showCoreLabel : CoreLabel → String
  debugOptTerm : Option Term → String
  debugString : String → String

/-- An internal error
(`crates/pikelet-concrete/src/elaborate/errors.rs`, `enum
InternalError`).  These are bugs. -/
inductive InternalError
  | UnexpectedBoundVar : ByteSpan → Var → InternalError
  | Unimplemented : Option ByteSpan → String → InternalError
  | Nbe : NbeError → InternalError
  deriving Repr, DecidableEq

/-- `impl From<NbeError> for InternalError`. -/
def InternalError.fromNbe (src : NbeError) : InternalError :=
  InternalError.Nbe src

/-- `InternalError::to_diagnostic`, mirrored arm for arm. -/
def InternalError.to_diagnostic (fmt : Fmt) : InternalError → Diagnostic
  | .UnexpectedBoundVar span v =>
      (Diagnostic.new_bug ("unexpected bound variable: `" ++ fmt.showVar v ++ "`")).with_label
        ((Label.new_primary span).with_message ("bound variable encountered here"))
  | .Unimplemented span message =>
      let base := Diagnostic.new_bug ("not yet implemented: " ++ message)
      match span with
      | none => base
      | some span =>
          base.with_label
            ((Label.new_primary span).with_message ("unimplemented feature encountered here"))
  | .Nbe nbe_error =>
      Diagnostic.new_bug ("failed to normalize: " ++ fmt.showNbe nbe_error)

/-- The `failure::Fail` `Display` strings of `InternalError`, from its
`#[fail(display = ...)]` attributes. -/
def InternalError.display (fmt : Fmt) : InternalError → String
  | .UnexpectedBoundVar _ v => "Unexpected bound variable: `" ++ fmt.showVar v ++ "`."
  | .Unimplemented _ message => "not yet implemented: " ++ message
  | .Nbe nbe_error => "nbe: " ++ fmt.showNbe nbe_error

/-- An error produced during type checking
(`crates/pikelet-concrete/src/elaborate/errors.rs`, `enum TypeError`).
The source constructor names `FunctionParamNeedsAnnotation` and
`BinderNeedsAnnotation` are shortened to `...NeedsAnn` for this
development. -/
inductive TypeError
  | DuplicateDeclarations : ByteSpan → ByteSpan → Binder → TypeError
  | DeclarationFollowedDefinition : ByteSpan → ByteSpan → Binder → TypeError
  | DuplicateDefinitions : ByteSpan → ByteSpan → Binder → TypeError
  | ArgAppliedToNonFunction : ByteSpan → ByteSpan → Term → TypeError
  | FunctionParamNeedsAnn : ByteSpan → Option ByteSpan → FreeVar → TypeError
  | BinderNeedsAnn : ByteSpan → Binder → TypeError
  | LiteralMismatch : ByteSpan → RawLiteral → Term → TypeError
  | AmbiguousIntLiteral : ByteSpan → TypeError
  | AmbiguousFloatLiteral : ByteSpan → TypeError
  | AmbiguousEmptyCase : ByteSpan → TypeError
  | UnableToElaborateHole : ByteSpan → Option Term → TypeError
  | Mismatch : ByteSpan → Term → Term → TypeError
  | UnexpectedFunction : ByteSpan → Term → TypeError
  | ExpectedUniverse : ByteSpan → Term → TypeError
  | UndefinedName : ByteSpan → FreeVar → TypeError
  | UndefinedImport : ByteSpan → String → TypeError
  | LabelMismatch : ByteSpan → CoreLabel → CoreLabel → TypeError
  | ArrayLengthMismatch : ByteSpan → Nat → Nat → TypeError
  | AmbiguousArrayLiteral : ByteSpan → TypeError
  | NoFieldInType : ByteSpan → CoreLabel → Term → TypeError
  | RecordSizeMismatch : ByteSpan → Nat → Nat → TypeError
  | Internal : InternalError → TypeError

/-- `TypeError::to_diagnostic`, mirrored arm for arm against
`crates/pikelet-concrete/src/elaborate/errors.rs` lines 189-377. -/
def TypeError.to_diagnostic (fmt : Fmt) : TypeError → Diagnostic
  | .Internal err => InternalError.to_diagnostic fmt err
  | .DuplicateDeclarations original_span duplicate_span binder =>
      ((Diagnostic.new_error
          ("name had more than one declaration associated with it `" ++
            fmt.showBinder binder ++ "`")).with_label
        ((Label.new_primary duplicate_span).with_message
          ("the duplicated declaration"))).with_label
        ((Label.new_secondary original_span).with_message
          ("the original declaration"))
  | .DeclarationFollowedDefinition definition_span declaration_span _ =>
      ((Diagnostic.new_error ("declarations cannot follow definitions")).with_label
        ((Label.new_primary declaration_span).with_message ("the declaration"))).with_label
        ((Label.new_secondary definition_span).with_message ("the original definition"))
  | .DuplicateDefinitions original_span duplicate_span binder =>
      ((Diagnostic.new_error
          ("name had more than one definition associated with it `" ++
            fmt.showBinder binder ++ "`")).with_label
        ((Label.new_primary duplicate_span).with_message
          ("the duplicated definition"))).with_label
        ((Label.new_secondary original_span).with_message
          ("the original definition"))
  | .ArgAppliedToNonFunction fn_span arg_span found =>
      ((Diagnostic.new_error
          ("applied an argument to a term that was not a function - found type `" ++
            fmt.showTerm found ++ "`")).with_label
        ((Label.new_primary fn_span).with_message ("the term"))).with_label
        ((Label.new_secondary arg_span).with_message ("the applied argument"))
  | .FunctionParamNeedsAnn param_span _ name =>
      (Diagnostic.new_error
          ("type annotation needed for the function parameter `" ++
            fmt.showFreeVar name ++ "`")).with_label
        ((Label.new_primary param_span).with_message
          ("the parameter that requires an annotation"))
  | .BinderNeedsAnn span binder =>
      (Diagnostic.new_error
          ("type annotation needed for the binder `" ++ fmt.showBinder binder ++ "`")).with_label
        ((Label.new_primary span).with_message
          ("the binder that requires an annotation"))
  | .LiteralMismatch literal_span found expected =>
      let found_text :=
        match found with
        | RawLiteral.String _ _ => "string"
        | RawLiteral.Char _ _ => "character"
        | RawLiteral.Int _ _ _ => "numeric"
        | RawLiteral.Float _ _ _ => "floating point"
      (Diagnostic.new_error
          ("found a " ++ found_text ++ " literal, but expected a type `" ++
            fmt.showTerm expected ++ "`")).with_label
        ((Label.new_primary literal_span).with_message ("the literal"))
  | .AmbiguousIntLiteral span =>
      (Diagnostic.new_error ("ambiguous integer literal")).with_label
        ((Label.new_primary span).with_message ("type annotation needed here"))
  | .AmbiguousFloatLiteral span =>
      (Diagnostic.new_error ("ambiguous floating point literal")).with_label
        ((Label.new_primary span).with_message ("type annotation needed here"))
  | .AmbiguousEmptyCase span =>
      (Diagnostic.new_error ("empty case expressions need type annotations")).with_label
        ((Label.new_primary span).with_message ("type annotation needed here"))
  | .UnableToElaborateHole span none =>
      (Diagnostic.new_error ("unable to elaborate hole")).with_label
        ((Label.new_primary span).with_message ("the hole"))
  | .UnableToElaborateHole span (some expected) =>
      (Diagnostic.new_error
          ("unable to elaborate hole - expected: `" ++ fmt.showTerm expected ++ "`")).with_label
        ((Label.new_primary span).with_message ("the hole"))
  | .UnexpectedFunction span expected =>
      (Diagnostic.new_error
          ("found a function but expected a term of type `" ++
            fmt.showTerm expected ++ "`")).with_label
        ((Label.new_primary span).with_message ("the function"))
  | .Mismatch span found expected =>
      (Diagnostic.new_error
          ("found a term of type `" ++ fmt.showTerm found ++
            "`, but expected a term of type `" ++ fmt.showTerm expected ++ "`")).with_label
        ((Label.new_primary span).with_message ("the term"))
  | .ExpectedUniverse span found =>
      (Diagnostic.new_error
          ("expected type, found a value of type `" ++ fmt.showTerm found ++ "`")).with_label
        ((Label.new_primary span).with_message ("the value"))
  | .UndefinedName span free_var =>
      (Diagnostic.new_bug
          ("cannot find `" ++ fmt.showFreeVar free_var ++ "` in scope")).with_label
        ((Label.new_primary span).with_message ("not found in this scope"))
  | .UndefinedImport span name =>
      (Diagnostic.new_error
          ("cannot find import for `" ++ fmt.debugString name ++ "`")).with_label
        ((Label.new_primary span).with_message ("import not found"))
  | .LabelMismatch span found expected =>
      (Diagnostic.new_error
          ("expected field called `" ++ fmt.showCoreLabel expected ++
            "`, but found a field called `" ++ fmt.showCoreLabel found ++ "`")).with_label
        (Label.new_primary span)
  | .ArrayLengthMismatch span found_len expected_len =>
      (Diagnostic.new_error
          ("mismatched array length: expected " ++ toString expected_len ++
            " elements but found " ++ toString found_len)).with_label
        ((Label.new_primary span).with_message
          ("array with " ++ toString found_len ++ " elements"))
  | .AmbiguousArrayLiteral span =>
      (Diagnostic.new_error ("ambiguous array literal")).with_label
        ((Label.new_primary span).with_message ("type annotations needed here"))
  | .NoFieldInType label_span expected_label found =>
      (Diagnostic.new_error
          ("the type `" ++ fmt.showTerm found ++
            "` does not contain a field called `" ++
            fmt.showCoreLabel expected_label ++ "`")).with_label
        ((Label.new_primary label_span).with_message ("the field lookup"))
  | .RecordSizeMismatch span found_size expected_size =>
      (Diagnostic.new_error
          ("mismatched record size: expected " ++ toString expected_size ++
            " fields but found " ++ toString found_size)).with_label
        ((Label.new_primary span).with_message
          ("record with " ++ toString found_size ++ " fields"))

/-- The `failure::Fail` `Display` strings of `TypeError`, from its
`#[fail(display = ...)]` attributes. -/
def TypeError.display (fmt : Fmt) : TypeError → String
  | .DuplicateDeclarations _ _ binder =>
      "Name had more than one declaration associated with it: `" ++
        fmt.showBinder binder ++ "`"
  | .DeclarationFollowedDefinition _ _ binder =>
      "Declaration followed definition: `" ++ fmt.showBinder binder ++ "`"
  | .DuplicateDefinitions _ _ binder =>
      "Name had more than one definition associated with it: `" ++
        fmt.showBinder binder ++ "`"
  | .ArgAppliedToNonFunction _ _ found =>
      "Applied an argument to a non-function type `" ++ fmt.showTerm found ++ "`"
  | .FunctionParamNeedsAnn _ _ name =>
      "Type annotation needed for the function parameter `" ++
        fmt.showFreeVar name ++ "`"
  | .BinderNeedsAnn _ binder =>
      "Type annotation needed for the binder `" ++ fmt.showBinder binder ++ "`"
  | .LiteralMismatch _ found expected =>
      "found a `" ++ fmt.showRawLiteral found ++ "`, but expected a type `" ++
        fmt.showTerm expected ++ "`"
  | .AmbiguousIntLiteral _ => "Ambiguous integer literal"
  | .AmbiguousFloatLiteral _ => "Ambiguous floating point literal"
  | .AmbiguousEmptyCase _ => "Empty case expressions need type annotations."
  | .UnableToElaborateHole _ expected =>
      "Unable to elaborate hole, expected: `" ++ fmt.debugOptTerm expected ++ "`"
  | .Mismatch _ found expected =>
      "Type mismatch: found `" ++ fmt.showTerm found ++ "` but `" ++
        fmt.showTerm expected ++ "` was expected"
  | .UnexpectedFunction _ expected =>
      "Found a function but expected `" ++ fmt.showTerm expected ++ "`"
  | .ExpectedUniverse _ found =>
      "Found `" ++ fmt.showTerm found ++ "` but a universe was expected"
  | .UndefinedName _ free_var =>
      "Not yet defined: `" ++ fmt.showFreeVar free_var ++ "`"
  | .UndefinedImport _ name =>
      "Undefined import `" ++ fmt.debugString name ++ "`"
  | .LabelMismatch _ found expected =>
      "Label mismatch: found label `" ++ fmt.showCoreLabel found ++ "` but `" ++
        fmt.showCoreLabel expected ++ "` was expected"
  | .ArrayLengthMismatch _ found_len expected_len =>
      "Mismatched array length: expected " ++ toString expected_len ++
        " elements but found " ++ toString found_len
  | .AmbiguousArrayLiteral _ => "Ambiguous record"
  | .NoFieldInType _ expected_label found =>
      "The type `" ++ fmt.showTerm found ++ "` does not contain a field named `" ++
        fmt.showCoreLabel expected_label ++ "`."
  | .RecordSizeMismatch _ found_size expected_size =>
      "Mismatched record size: expected " ++ toString expected_size ++
        " fields but found " ++ toString found_size
  | .Internal err => "Internal error - this is a bug! " ++ InternalError.display fmt err

/-- `impl From<InternalError> for TypeError`. -/
def TypeError.fromInternal (src : InternalError) : TypeError :=
  TypeError.Internal src

/-- `impl From<NbeError> for TypeError`: goes through `InternalError`. -/
def TypeError.fromNbe (src : NbeError) : TypeError :=
  TypeError.fromInternal (InternalError.fromNbe src)

/-- Appending to a nonempty string yields a nonempty string. -/
theorem string_append_ne_empty (a b : String) (h : a ≠ "") : a ++ b ≠ "" := by
  cases a with
  | mk da =>
  cases b with
  | mk db =>
  intro hab
  apply h
  have hd : da ++ db = [] := by
    simpa [String.ext_iff] using hab
  have hda : da = [] := (List.append_eq_nil.mp hd).1
  simp [hda]

/-- Fixed formatting functions, used to evaluate diagnostics on
concrete error values. -/
def fmt0 : Fmt :=
  ⟨fun _ => "v", fun _ => "b", fun _ => "f", fun _ => "n", fun _ => "t",
   fun _ => "l", fun _ => "c", fun _ => "o", fun _ => "s"⟩

/-- C1: `InternalError::to_diagnostic` always produces severity bug;
`TypeError::to_diagnostic` produces severity error except for
`UndefinedName`, which produces bug, and `Internal`, which produces the
wrapped internal error's bug diagnostic. -/
theorem severity_mapping (fmt : Fmt) :
    (∀ e : InternalError, (InternalError.to_diagnostic fmt e).severity = Severity.Bug)
  ∧ (∀ t : TypeError,
      (TypeError.to_diagnostic fmt t).severity =
        match t with
        | TypeError.UndefinedName _ _ => Severity.Bug
        | TypeError.Internal _ => Severity.Bug
        | _ => Severity.Error)
  ∧ (∀ e : InternalError,
      TypeError.to_diagnostic fmt (TypeError.Internal e) = InternalError.to_diagnostic fmt e) := by
  refine ⟨?_, ?_, fun _ => rfl⟩
  · intro e
    cases e with
    | UnexpectedBoundVar sp v => rfl
    | Unimplemented sp m => cases sp <;> rfl
    | Nbe n => rfl
  · intro t
    cases t <;> try rfl
    case Internal e =>
      cases e with
      | UnexpectedBoundVar sp v => rfl
      | Unimplemented sp m => cases sp <;> rfl
      | Nbe n => rfl
    case UnableToElaborateHole sp ex => cases ex <;> rfl

/-- C2 (amended): the four errors with two semantically linked spans -
`DuplicateDeclarations`, `DeclarationFollowedDefinition`,
`DuplicateDefinitions`, `ArgAppliedToNonFunction` - produce a primary
label at the fault site and a secondary label at the related site;
`NoFieldInType` produces only a primary label at the field lookup (the
containing type appears in the message, not as a secondary label). -/
theorem linked_site_labels (fmt : Fmt) :
    (∀ (os ds : ByteSpan) (b : Binder),
      (TypeError.to_diagnostic fmt (TypeError.DuplicateDeclarations os ds b)).labels =
        [⟨ds, some ("the duplicated declaration"), LabelStyle.Primary⟩,
         ⟨os, some ("the original declaration"), LabelStyle.Secondary⟩])
  ∧ (∀ (dsp csp : ByteSpan) (b : Binder),
      (TypeError.to_diagnostic fmt (TypeError.DeclarationFollowedDefinition dsp csp b)).labels =
        [⟨csp, some ("the declaration"), LabelStyle.Primary⟩,
         ⟨dsp, some ("the original definition"), LabelStyle.Secondary⟩])
  ∧ (∀ (os ds : ByteSpan) (b : Binder),
      (TypeError.to_diagnostic fmt (TypeError.DuplicateDefinitions os ds b)).labels =
        [⟨ds, some ("the duplicated definition"), LabelStyle.Primary⟩,
         ⟨os, some ("the original definition"), LabelStyle.Secondary⟩])
  ∧ (∀ (fsp asp : ByteSpan) (found : Term),
      (TypeError.to_diagnostic fmt (TypeError.ArgAppliedToNonFunction fsp asp found)).labels =
        [⟨fsp, some ("the term"), LabelStyle.Primary⟩,
         ⟨asp, some ("the applied argument"), LabelStyle.Secondary⟩])
  ∧ (∀ (lsp : ByteSpan) (lab : CoreLabel) (found : Term),
      (TypeError.to_diagnostic fmt (TypeError.NoFieldInType lsp lab found)).labels =
        [⟨lsp, some ("the field lookup"), LabelStyle.Primary⟩]) :=
  ⟨fun _ _ _ => rfl, fun _ _ _ => rfl, fun _ _ _ => rfl, fun _ _ _ => rfl,
   fun _ _ _ => rfl⟩

/-- C2 counterexample: the diagnostic for a concrete `NoFieldInType`
value has no secondary label at all - its label list is exactly one
primary label at the field lookup - refuting the claim that a secondary
label is produced at the containing type's site. -/
theorem noFieldInType_no_secondary_label :
    (TypeError.to_diagnostic fmt0
        (TypeError.NoFieldInType ⟨0, 1⟩ ⟨"x"⟩ (Term.Hole ⟨2, 3⟩))).labels =
      [⟨⟨0, 1⟩, some ("the field lookup"), LabelStyle.Primary⟩]
  ∧ ((TypeError.to_diagnostic fmt0
        (TypeError.NoFieldInType ⟨0, 1⟩ ⟨"x"⟩ (Term.Hole ⟨2, 3⟩))).labels.filter
      (fun l => l.style == LabelStyle.Secondary)) = [] :=
  ⟨rfl, rfl⟩

/-- `InternalError` variants whose diagnostic carries no label:
`Nbe`, and `Unimplemented` with no span. -/
def InternalError.isLabelless : InternalError → Bool
  | .Nbe _ => true
  | .Unimplemented none _ => true
  | _ => false

/-- `TypeError` variants whose diagnostic carries no label: exactly the
label-less internal errors, wrapped in `Internal`. -/
def TypeError.isLabelless : TypeError → Bool
  | .Internal e => e.isLabelless
  | _ => false

/-- C3 (amended): every diagnostic produced by `to_diagnostic` has a
nonempty message; every diagnostic has at least one labeled span with
the primary label first, except those of `InternalError::Nbe` and of
`InternalError::Unimplemented` with no span (and of `TypeError::Internal`
wrapping these), which have no labels at all. -/
theorem diagnostic_message_and_labels (fmt : Fmt) :
    (∀ e : InternalError, (InternalError.to_diagnostic fmt e).message ≠ "")
  ∧ (∀ t : TypeError, (TypeError.to_diagnostic fmt t).message ≠ "")
  ∧ (∀ e : InternalError, e.isLabelless = true →
      (InternalError.to_diagnostic fmt e).labels = [])
  ∧ (∀ e : InternalError, e.isLabelless = false →
      ∃ l ls, (InternalError.to_diagnostic fmt e).labels = l :: ls ∧
        l.style = LabelStyle.Primary)
  ∧ (∀ t : TypeError, t.isLabelless = true →
      (TypeError.to_diagnostic fmt t).labels = [])
  ∧ (∀ t : TypeError, t.isLabelless = false →
      ∃ l ls, (TypeError.to_diagnostic fmt t).labels = l :: ls ∧
        l.style = LabelStyle.Primary) := by
  refine ⟨?_, ?_, ?_, ?_, ?_, ?_⟩
  · intro e
    cases e with
    | UnexpectedBoundVar sp v =>
        apply string_append_ne_empty
        apply string_append_ne_empty
        decide
    | Unimplemented sp m =>
        cases sp <;>
          · apply string_append_ne_empty
            decide
    | Nbe n =>
        apply string_append_ne_empty
        decide
  · intro t
    cases t <;>
      try first
        | (simp only [TypeError.to_diagnostic, Diagnostic.new_error, Diagnostic.new_bug,
            Diagnostic.with_label] <;> decide)
        | (apply string_append_ne_empty; decide)
        | (apply string_append_ne_empty; apply string_append_ne_empty; decide)
        | (apply string_append_ne_empty; apply string_append_ne_empty;
            apply string_append_ne_empty; decide)
        | (apply string_append_ne_empty; apply string_append_ne_empty;
            apply string_append_ne_empty; apply string_append_ne_empty; decide)
    case Internal e =>
      cases e with
      | UnexpectedBoundVar sp v =>
          apply string_append_ne_empty
          apply string_append_ne_empty
          decide
      | Unimplemented sp m =>
          cases sp <;>
            · apply string_append_ne_empty
              decide
      | Nbe n =>
          apply string_append_ne_empty
          decide
    case UnableToElaborateHole sp ex =>
      cases ex with
      | none =>
          simp only [TypeError.to_diagnostic, Diagnostic.new_error, Diagnostic.with_label]
          decide
      | some x =>
          apply string_append_ne_empty
          apply string_append_ne_empty
          decide
  · intro e he
    cases e with
    | UnexpectedBoundVar sp v => simp [InternalError.isLabelless] at he
    | Unimplemented sp m =>
        cases sp with
        | none => rfl
        | some s => simp [InternalError.isLabelless] at he
    | Nbe n => rfl
  · intro e he
    cases e with
    | UnexpectedBoundVar sp v => exact ⟨_, _, rfl, rfl⟩
    | Unimplemented sp m =>
        cases sp with
        | none => simp [InternalError.isLabelless] at he
        | some s => exact ⟨_, _, rfl, rfl⟩
    | Nbe n => simp [InternalError.isLabelless] at he
  · intro t ht
    cases t <;> try simp [TypeError.isLabelless] at ht
    case Internal e =>
      cases e with
      | UnexpectedBoundVar sp v =>
          simp [TypeError.isLabelless, InternalError.isLabelless] at ht
      | Unimplemented sp m =>
          cases sp with
          | none => rfl
          | some s => simp [TypeError.isLabelless, InternalError.isLabelless] at ht
      | Nbe n => rfl
  · intro t ht
    cases t <;> try exact ⟨_, _, rfl, rfl⟩
    case Internal e =>
      cases e with
      | UnexpectedBoundVar sp v => exact ⟨_, _, rfl, rfl⟩
      | Unimplemented sp m =>
          cases sp with
          | none => simp [TypeError.isLabelless, InternalError.isLabelless] at ht
          | some s => exact ⟨_, _, rfl, rfl⟩
      | Nbe n => simp [TypeError.isLabelless, InternalError.isLabelless] at ht
    case UnableToElaborateHole sp ex => cases ex <;> exact ⟨_, _, rfl, rfl⟩

/-- C3 counterexample: concrete diagnostics with zero labeled spans -
`InternalError::Nbe`, `InternalError::Unimplemented` with no span, and
`TypeError::Internal` wrapping the former - refuting the claim that
every diagnostic has at least one labeled span. -/
theorem nbe_diagnostic_has_no_labels :
    (InternalError.to_diagnostic fmt0 (InternalError.Nbe ⟨"m"⟩)).labels = []
  ∧ (InternalError.to_diagnostic fmt0 (InternalError.Unimplemented none ("m"))).labels = []
  ∧ (TypeError.to_diagnostic fmt0 (TypeError.Internal (InternalError.Nbe ⟨"m"⟩))).labels = [] :=
  ⟨rfl, rfl, rfl⟩

/-- C3 witness: the amended theorem evaluated on concrete error values,
discharging the label-lessness hypotheses there. -/
theorem diagnostic_message_and_labels_witness :
    (InternalError.isLabelless (InternalError.Nbe ⟨"m"⟩) = true
      ∧ (InternalError.to_diagnostic fmt0 (InternalError.Nbe ⟨"m"⟩)).labels = [])
  ∧ (InternalError.isLabelless (InternalError.UnexpectedBoundVar ⟨0, 1⟩ (Var.Bound 0 none)) = false
      ∧ ∃ l ls,
          (InternalError.to_diagnostic fmt0
            (InternalError.UnexpectedBoundVar ⟨0, 1⟩ (Var.Bound 0 none))).labels = l :: ls
          ∧ l.style = LabelStyle.Primary)
  ∧ (TypeError.isLabelless (TypeError.Internal (InternalError.Nbe ⟨"m"⟩)) = true
      ∧ (TypeError.to_diagnostic fmt0 (TypeError.Internal (InternalError.Nbe ⟨"m"⟩))).labels = [])
  ∧ (TypeError.isLabelless (TypeError.AmbiguousIntLiteral ⟨0, 1⟩) = false
      ∧ ∃ l ls,
          (TypeError.to_diagnostic fmt0 (TypeError.AmbiguousIntLiteral ⟨0, 1⟩)).labels = l :: ls
          ∧ l.style = LabelStyle.Primary) :=
  ⟨⟨rfl, (diagnostic_message_and_labels fmt0).2.2.1 _ rfl⟩,
   ⟨rfl, (diagnostic_message_and_labels fmt0).2.2.2.1 _ rfl⟩,
   ⟨rfl, (diagnostic_message_and_labels fmt0).2.2.2.2.1 _ rfl⟩,
   ⟨rfl, (diagnostic_message_and_labels fmt0).2.2.2.2.2 _ rfl⟩⟩

/-- The `ByteSpan`s stored in an `InternalError`'s fields, in field
declaration order (`Unimplemented`'s span is optional; `Nbe` stores
none). -/
def InternalError.spans : InternalError → List ByteSpan
  | .UnexpectedBoundVar sp _ => [sp]
  | .Unimplemented sp _ => sp.toList
  | .Nbe _ => []

/-- Whether a `TypeError` is the `Internal` wrapper. -/
def TypeError.isInternal : TypeError → Bool
  | .Internal _ => true
  | _ => false

/-- The `ByteSpan`s stored in a `TypeError`'s fields, in field
declaration order (`Internal` stores exactly the wrapped error's
spans). -/
def TypeError.spans : TypeError → List ByteSpan
  | .DuplicateDeclarations a b _ => [a, b]
  | .DeclarationFollowedDefinition a b _ => [a, b]
  | .DuplicateDefinitions a b _ => [a, b]
  | .ArgAppliedToNonFunction a b _ => [a, b]
  | .FunctionParamNeedsAnn a b _ => a :: b.toList
  | .BinderNeedsAnn a _ => [a]
  | .LiteralMismatch a _ _ => [a]
  | .AmbiguousIntLiteral a => [a]
  | .AmbiguousFloatLiteral a => [a]
  | .AmbiguousEmptyCase a => [a]
  | .UnableToElaborateHole a _ => [a]
  | .Mismatch a _ _ => [a]
  | .UnexpectedFunction a _ => [a]
  | .ExpectedUniverse a _ => [a]
  | .UndefinedName a _ => [a]
  | .UndefinedImport a _ => [a]
  | .LabelMismatch a _ _ => [a]
  | .ArrayLengthMismatch a _ _ => [a]
  | .AmbiguousArrayLiteral a => [a]
  | .NoFieldInType a _ _ => [a]
  | .RecordSizeMismatch a _ _ => [a]
  | .Internal e => e.spans

/-- C4 (amended): every `TypeError` variant other than `Internal`
stores at least one `ByteSpan`; among `InternalError` variants,
`UnexpectedBoundVar` always stores one, `Unimplemented` stores one
exactly when its optional span is present, and `Nbe` stores none;
`Internal` stores exactly the wrapped internal error's spans. -/
theorem error_spans :
    (∀ t : TypeError, t.isInternal = false → t.spans ≠ [])
  ∧ (∀ (sp : ByteSpan) (v : Var), (InternalError.UnexpectedBoundVar sp v).spans = [sp])
  ∧ (∀ (sp : ByteSpan) (m : String), (InternalError.Unimplemented (some sp) m).spans = [sp])
  ∧ (∀ m : String, (InternalError.Unimplemented none m).spans = [])
  ∧ (∀ n : NbeError, (InternalError.Nbe n).spans = [])
  ∧ (∀ e : InternalError, (TypeError.Internal e).spans = InternalError.spans e) := by
  refine ⟨?_, fun _ _ => rfl, fun _ _ => rfl, fun _ => rfl, fun _ => rfl, fun _ => rfl⟩
  intro t ht
  cases t <;> simp_all [TypeError.spans, TypeError.isInternal]

/-- C4 counterexample: a constructible `InternalError` value that
stores no `ByteSpan` at all, refuting the claim that every variant has
a populated span field. -/
theorem unimplemented_none_stores_no_span :
    (InternalError.Unimplemented none ("m")).spans = []
  ∧ (InternalError.Nbe ⟨"m"⟩).spans = []
  ∧ (TypeError.Internal (InternalError.Unimplemented none ("m"))).spans = [] :=
  ⟨rfl, rfl, rfl⟩

/-- C4 witness: the amended theorem evaluated on a concrete
non-`Internal` type error, discharging the hypothesis there. -/
theorem error_spans_witness :
    TypeError.isInternal (TypeError.AmbiguousIntLiteral ⟨0, 1⟩) = false
  ∧ TypeError.spans (TypeError.AmbiguousIntLiteral ⟨0, 1⟩) ≠ [] :=
  ⟨rfl, error_spans.1 _ rfl⟩

/-- C6: the `From` conversions: every `InternalError` `e` (including
one produced from an `NbeError`) converts to exactly
`TypeError::Internal(e)`, and `to_diagnostic` on the wrapper yields the
same diagnostic as `to_diagnostic` on `e` directly. -/
theorem internalError_conversion_roundtrip (fmt : Fmt) :
    (∀ e : InternalError, TypeError.fromInternal e = TypeError.Internal e)
  ∧ (∀ n : NbeError, InternalError.fromNbe n = InternalError.Nbe n)
  ∧ (∀ n : NbeError, TypeError.fromNbe n = TypeError.Internal (InternalError.Nbe n))
  ∧ (∀ e : InternalError,
      TypeError.to_diagnostic fmt (TypeError.Internal e) = InternalError.to_diagnostic fmt e) :=
  ⟨fun _ => rfl, fun _ => rfl, fun _ => rfl, fun _ => rfl⟩

/-- C7: the `LiteralMismatch` diagnostic message names the found
literal's surface kind - string / character / numeric / floating
point - together with the expected type's printed form. -/
theorem literalMismatch_message (fmt : Fmt) :
    ∀ (sp : ByteSpan) (lit : RawLiteral) (expected : Term),
      (TypeError.to_diagnostic fmt (TypeError.LiteralMismatch sp lit expected)).message =
        "found a " ++
          (match lit with
           | RawLiteral.String _ _ => "string"
           | RawLiteral.Char _ _ => "character"
           | RawLiteral.Int _ _ _ => "numeric"
           | RawLiteral.Float _ _ _ => "floating point") ++
          " literal, but expected a type `" ++ fmt.showTerm expected ++ "`" := by
  intro sp lit expected
  cases lit <;> rfl

/-- C8: the `UnableToElaborateHole` diagnostic: with no expected type
the message is exactly "unable to elaborate hole"; with an expected
type the message appends its printed form; in both cases the only
label is a primary label at the hole's span. -/
theorem unableToElaborateHole_diagnostic (fmt : Fmt) :
    (∀ sp : ByteSpan,
      TypeError.to_diagnostic fmt (TypeError.UnableToElaborateHole sp none) =
        ⟨Severity.Error, "unable to elaborate hole",
          [⟨sp, some ("the hole"), LabelStyle.Primary⟩]⟩)
  ∧ (∀ (sp : ByteSpan) (expected : Term),
      TypeError.to_diagnostic fmt (TypeError.UnableToElaborateHole sp (some expected)) =
        ⟨Severity.Error,
          "unable to elaborate hole - expected: `" ++ fmt.showTerm expected ++ "`",
          [⟨sp, some ("the hole"), LabelStyle.Primary⟩]⟩) :=
  ⟨fun _ => rfl, fun _ _ => rfl⟩

/-- C10: the two renderings of `AmbiguousArrayLiteral` disagree: the
`failure` `Display` string is "Ambiguous record" while the diagnostic
message is "ambiguous array literal". -/
theorem ambiguousArrayLiteral_renderings_disagree (fmt : Fmt) :
    ∀ sp : ByteSpan,
      TypeError.display fmt (TypeError.AmbiguousArrayLiteral sp) = "Ambiguous record"
    ∧ (TypeError.to_diagnostic fmt (TypeError.AmbiguousArrayLiteral sp)).message =
        "ambiguous array literal"
    ∧ TypeError.display fmt (TypeError.AmbiguousArrayLiteral sp) ≠
        (TypeError.to_diagnostic fmt (TypeError.AmbiguousArrayLiteral sp)).message := by
  intro sp
  refine ⟨rfl, rfl, ?_⟩
  intro h
  have : ("Ambiguous record" : String) = "ambiguous array literal" := h
  simp at this

mutual
/-- Every `FunApp` node anywhere in the term has a non-empty argument
vector. -/
def Term.funAppsNonEmpty : Term → Bool
  | .Parens _ t => t.funAppsNonEmpty
  | .Ann t ty => t.funAppsNonEmpty && ty.funAppsNonEmpty
  | .Universe _ _ => true
  | .Literal _ => true
  | .ArrayIntro _ ts => Term.listFunAppsNonEmpty ts
  | .Hole _ => true
  | .Name _ _ _ => true
  | .Import _ _ _ => true
  | .FunType _ params body =>
      Term.ftParamsFunAppsNonEmpty params && body.funAppsNonEmpty
  | .FunArrow a b => a.funAppsNonEmpty && b.funAppsNonEmpty
  | .FunIntro _ params body =>
      Term.fiParamsFunAppsNonEmpty params && body.funAppsNonEmpty
  | .FunApp head args =>
      !args.isEmpty && head.funAppsNonEmpty && Term.listFunAppsNonEmpty args
  | .Let _ items body => Term.itemsFunAppsNonEmpty items && body.funAppsNonEmpty
  | .Where body items _ => body.funAppsNonEmpty && Term.itemsFunAppsNonEmpty items
  | .If _ c t e => c.funAppsNonEmpty && t.funAppsNonEmpty && e.funAppsNonEmpty
  | .Case _ scrut arms => scrut.funAppsNonEmpty && Term.armsFunAppsNonEmpty arms
  | .RecordType _ fields => Term.rtFieldsFunAppsNonEmpty fields
  | .RecordIntro _ fields => Term.rFieldsFunAppsNonEmpty fields
  | .RecordProj _ t _ _ _ => t.funAppsNonEmpty
  | .Error _ => true

/-- `funAppsNonEmpty` over a list of terms. -/
def Term.listFunAppsNonEmpty : List Term → Bool
  | [] => true
  | t :: ts => t.funAppsNonEmpty && Term.listFunAppsNonEmpty ts

/-- `funAppsNonEmpty` over an optional term. -/
def Term.optFunAppsNonEmpty : Option Term → Bool
  | none => true
  | some t => t.funAppsNonEmpty

/-- `funAppsNonEmpty` over lambda-style parameter groups. -/
def Term.fiParamsFunAppsNonEmpty : List (List (ByteIndex × String) × Option Term) → Bool
  | [] => true
  | (_, ann) :: rest => Term.optFunAppsNonEmpty ann && Term.fiParamsFunAppsNonEmpty rest

/-- `funAppsNonEmpty` over dependent-function parameter groups. -/
def Term.ftParamsFunAppsNonEmpty : List (List (ByteIndex × String) × Term) → Bool
  | [] => true
  | (_, ann) :: rest => ann.funAppsNonEmpty && Term.ftParamsFunAppsNonEmpty rest

/-- `funAppsNonEmpty` over an item. -/
def Term.itemFunAppsNonEmpty : Item → Bool
  | .Declaration _ ann => ann.funAppsNonEmpty
  | .Definition _ params ret body =>
      Term.fiParamsFunAppsNonEmpty params && Term.optFunAppsNonEmpty ret &&
        body.funAppsNonEmpty
  | .Error _ => true

/-- `funAppsNonEmpty` over a list of items. -/
def Term.itemsFunAppsNonEmpty : List Item → Bool
  | [] => true
  | i :: rest => Term.itemFunAppsNonEmpty i && Term.itemsFunAppsNonEmpty rest

/-- `funAppsNonEmpty` over a pattern. -/
def Term.patFunAppsNonEmpty : Pattern → Bool
  | .Parens _ p => Term.patFunAppsNonEmpty p
  | .Ann p ty => Term.patFunAppsNonEmpty p && ty.funAppsNonEmpty
  | .Literal _ => true
  | .Name _ _ _ => true
  | .Error _ => true

/-- `funAppsNonEmpty` over case arms. -/
def Term.armsFunAppsNonEmpty : List (Pattern × Term) → Bool
  | [] => true
  | (p, t) :: rest =>
      Term.patFunAppsNonEmpty p && t.funAppsNonEmpty && Term.armsFunAppsNonEmpty rest

/-- `funAppsNonEmpty` over record type fields. -/
def Term.rtFieldsFunAppsNonEmpty : List RecordTypeField → Bool
  | [] => true
  | .mk _ _ ann :: rest => ann.funAppsNonEmpty && Term.rtFieldsFunAppsNonEmpty rest

/-- `funAppsNonEmpty` over a record introduction field. -/
def Term.rFieldFunAppsNonEmpty : RecordField → Bool
  | .Punned _ _ => true
  | .Explicit _ params ret t =>
      Term.fiParamsFunAppsNonEmpty params && Term.optFunAppsNonEmpty ret &&
        t.funAppsNonEmpty

/-- `funAppsNonEmpty` over record introduction fields. -/
def Term.rFieldsFunAppsNonEmpty : List RecordField → Bool
  | [] => true
  | f :: rest => Term.rFieldFunAppsNonEmpty f && Term.rFieldsFunAppsNonEmpty rest
end

/-- Auxiliary for the span totality claim: on terms of bounded size,
`span` is defined whenever every `FunApp` node has non-empty arguments,
and `spanOfLast` is defined on non-empty lists of such terms. -/
theorem span_isSome_aux : ∀ n : Nat,
    (∀ t : Term, sizeOf t ≤ n → Term.funAppsNonEmpty t = true →
      (Term.span t).isSome = true)
  ∧ (∀ ts : List Term, sizeOf ts ≤ n → ts ≠ [] →
      Term.listFunAppsNonEmpty ts = true → (Term.spanOfLast ts).isSome = true) := by
  intro n
  induction n with
  | zero =>
      constructor
      · intro t hsz hf
        exfalso
        cases t <;> simp at hsz
      · intro ts hsz hne hl
        cases ts with
        | nil => exact absurd rfl hne
        | cons a l =>
            exfalso
            simp at hsz
  | succ n ih =>
      constructor
      · intro t hsz hf
        cases t with
        | Parens sp t => simp [Term.span]
        | Universe sp l => simp [Term.span]
        | Hole sp => simp [Term.span]
        | Name sp s l => simp [Term.span]
        | Import sp sp2 s => simp [Term.span]
        | Case sp t arms => simp [Term.span]
        | RecordType sp fields => simp [Term.span]
        | RecordIntro sp fields => simp [Term.span]
        | RecordProj sp t i s l => simp [Term.span]
        | ArrayIntro sp ts => simp [Term.span]
        | Error sp => simp [Term.span]
        | Literal lit => simp [Term.span]
        | FunType start params body =>
            simp only [Term.funAppsNonEmpty, Bool.and_eq_true] at hf
            have hszb : sizeOf body ≤ n := by simp at hsz; omega
            obtain ⟨sb, hsb⟩ := Option.isSome_iff_exists.mp (ih.1 body hszb hf.2)
            simp [Term.span, hsb]
        | FunIntro start params body =>
            simp only [Term.funAppsNonEmpty, Bool.and_eq_true] at hf
            have hszb : sizeOf body ≤ n := by simp at hsz; omega
            obtain ⟨sb, hsb⟩ := Option.isSome_iff_exists.mp (ih.1 body hszb hf.2)
            simp [Term.span, hsb]
        | Let start items body =>
            simp only [Term.funAppsNonEmpty, Bool.and_eq_true] at hf
            have hszb : sizeOf body ≤ n := by simp at hsz; omega
            obtain ⟨sb, hsb⟩ := Option.isSome_iff_exists.mp (ih.1 body hszb hf.2)
            simp [Term.span, hsb]
        | If start c t e =>
            simp only [Term.funAppsNonEmpty, Bool.and_eq_true] at hf
            have hszb : sizeOf e ≤ n := by simp at hsz; omega
            obtain ⟨sb, hsb⟩ := Option.isSome_iff_exists.mp (ih.1 e hszb hf.2)
            simp [Term.span, hsb]
        | Where body items stop =>
            simp only [Term.funAppsNonEmpty, Bool.and_eq_true] at hf
            have hszb : sizeOf body ≤ n := by simp at hsz; omega
            obtain ⟨sb, hsb⟩ := Option.isSome_iff_exists.mp (ih.1 body hszb hf.1)
            simp [Term.span, hsb]
        | Ann t ty =>
            simp only [Term.funAppsNonEmpty, Bool.and_eq_true] at hf
            have hszt : sizeOf t ≤ n := by simp at hsz; omega
            have hszty : sizeOf ty ≤ n := by simp at hsz; omega
            obtain ⟨st, hst⟩ := Option.isSome_iff_exists.mp (ih.1 t hszt hf.1)
            obtain ⟨sty, hsty⟩ := Option.isSome_iff_exists.mp (ih.1 ty hszty hf.2)
            simp [Term.span, hst, hsty]
        | FunArrow a b =>
            simp only [Term.funAppsNonEmpty, Bool.and_eq_true] at hf
            have hsza : sizeOf a ≤ n := by simp at hsz; omega
            have hszb : sizeOf b ≤ n := by simp at hsz; omega
            obtain ⟨sa, hsa⟩ := Option.isSome_iff_exists.mp (ih.1 a hsza hf.1)
            obtain ⟨sb, hsb⟩ := Option.isSome_iff_exists.mp (ih.1 b hszb hf.2)
            simp [Term.span, hsa, hsb]
        | FunApp head args =>
            cases args with
            | nil =>
                exfalso
                simp [Term.funAppsNonEmpty] at hf
            | cons a l =>
                simp only [Term.funAppsNonEmpty, Bool.and_eq_true, List.isEmpty_cons,
                  Bool.not_false, true_and] at hf
                have hszh : sizeOf head ≤ n := by simp at hsz; omega
                have hszl : sizeOf (a :: l) ≤ n := by simp at hsz; simp; omega
                obtain ⟨hs, hhs⟩ := Option.isSome_iff_exists.mp (ih.1 head hszh hf.1)
                obtain ⟨ls, hls⟩ :=
                  Option.isSome_iff_exists.mp (ih.2 (a :: l) hszl (by simp) hf.2)
                simp [Term.span, hhs, hls]
      · intro ts hsz hne hl
        cases ts with
        | nil => exact absurd rfl hne
        | cons a l =>
            cases l with
            | nil =>
                simp only [Term.listFunAppsNonEmpty, Bool.and_eq_true] at hl
                have hsza : sizeOf a ≤ n := by simp at hsz; omega
                have := ih.1 a hsza hl.1
                simpa [Term.spanOfLast] using this
            | cons b m =>
                simp only [Term.listFunAppsNonEmpty, Bool.and_eq_true] at hl
                have hszl : sizeOf (b :: m) ≤ n := by simp at hsz; simp; omega
                have h2 := ih.2 (b :: m) hszl (by simp)
                  (by simp only [Term.listFunAppsNonEmpty, Bool.and_eq_true]
                      exact hl.2)
                simpa [Term.spanOfLast] using h2

/-- C9: for every concrete term in which every `FunApp` node has a
non-empty argument vector, `Term::span` returns a span without
panicking; on a `FunApp` node with an empty argument vector, `span`
panics (`arg.last().unwrap()`), modelled as `none`. -/
theorem funApp_span_totality :
    (∀ t : Term, Term.funAppsNonEmpty t = true → (Term.span t).isSome = true)
  ∧ (∀ head : Term, Term.span (Term.FunApp head []) = none) := by
  constructor
  · intro t hf
    exact (span_isSome_aux (sizeOf t)).1 t le_rfl hf
  · intro head
    rcases h : Term.span head with _ | s <;>
      simp [Term.span, Term.spanOfLast, h]

/-- C9 witness: the totality theorem evaluated on a concrete term with
a non-empty application, discharging the hypothesis there. -/
theorem funApp_span_totality_witness :
    Term.funAppsNonEmpty (Term.FunApp (Term.Hole ⟨0, 1⟩) [Term.Hole ⟨2, 3⟩]) = true
  ∧ (Term.span (Term.FunApp (Term.Hole ⟨0, 1⟩) [Term.Hole ⟨2, 3⟩])).isSome = true
  ∧ Term.span (Term.FunApp (Term.Hole ⟨4, 5⟩) []) = none := by
  refine ⟨?_, ?_, funApp_span_totality.2 _⟩
  · simp [Term.funAppsNonEmpty, Term.listFunAppsNonEmpty]
  · exact funApp_span_totality.1 _
      (by simp [Term.funAppsNonEmpty, Term.listFunAppsNonEmpty])

/-- `ByteSpan::new` does not swap when the ends are in order. -/
theorem ByteSpan.new_of_le (a b : Nat) (h : a ≤ b) : ByteSpan.new a b = ⟨a, b⟩ := by
  unfold ByteSpan.new
  rw [if_neg (by omega)]

/-- The terms' spans are all defined, well formed, and laid out left to
right after `prev`: each term's span starts no earlier than the
previous span stops. -/
def spansChainedFrom : ByteSpan → List Term → Prop
  | _, [] => True
  | prev, t :: ts =>
      ∃ s, Term.span t = some s ∧ prev.stop ≤ s.start ∧ s.wf ∧ spansChainedFrom s ts

/-- On a chained non-empty argument list, `spanOfLast` is defined, the
last span is well formed and starts after `prev`, and every element's
span lies between `prev` and the last span's stop. -/
theorem spanOfLast_chained (args : List Term) :
    ∀ prev : ByteSpan, spansChainedFrom prev args → args ≠ [] →
      ∃ ls, Term.spanOfLast args = some ls ∧ ls.wf ∧ prev.stop ≤ ls.start ∧
        ∀ t ∈ args, ∀ s, Term.span t = some s →
          prev.stop ≤ s.start ∧ s.stop ≤ ls.stop := by
  induction args with
  | nil => intro prev _ hne; exact absurd rfl hne
  | cons a l ihl =>
      intro prev h _
      obtain ⟨s, hsa, hps, hwf, hrest⟩ := h
      have hwf' : s.start ≤ s.stop := hwf
      cases l with
      | nil =>
          refine ⟨s, by simpa [Term.spanOfLast] using hsa, hwf, hps, ?_⟩
          intro t ht s' hs'
          have ht' : t = a := by simpa using ht
          subst ht'
          rw [hsa] at hs'
          injection hs' with h'
          subst h'
          exact ⟨hps, le_rfl⟩
      | cons b m =>
          obtain ⟨ls, hls, hlwf, hsls, hbounds⟩ := ihl s hrest (by simp)
          have hlwf' : ls.start ≤ ls.stop := hlwf
          refine ⟨ls, by simpa [Term.spanOfLast] using hls, hlwf, by omega, ?_⟩
          intro t ht s' hs'
          rcases List.mem_cons.mp ht with rfl | ht'
          · rw [hsa] at hs'
            injection hs' with h'
            subst h'
            exact ⟨hps, by omega⟩
          · have hb := hbounds t ht' s' hs'
            exact ⟨by omega, hb.2⟩

/-- Enclosure by a span given by its two ends. -/
theorem ByteSpan.encloses_mk (a b : Nat) (s : ByteSpan)
    (h1 : a ≤ s.start) (h2 : s.stop ≤ b) : ByteSpan.encloses ⟨a, b⟩ s :=
  ⟨h1, h2⟩

/-- C5 (amended): for every node whose `span` is computed from its
children's spans - `Term::Ann`, `FunArrow`, `FunApp` (non-empty),
`FunType`, `FunIntro`, `Let`, `If`, `Literal`, `Pattern::Ann`,
`Pattern::Literal`, `Item::Declaration` and `Item::Definition` - if the
children's spans are well formed and lie in source order at or after
the node's start position, the node's span encloses the span of every
child.  Nodes that return a span stored at parse time (`Parens`,
`Case`, `ArrayIntro`, `RecordType`, `RecordIntro`, `RecordProj`,
`Pattern::Parens`, `Item::Error`, `Term::Error`) and `Where` (whose
stored end index does not bound its items) enclose their children only
if the parser stored an enclosing span; see the counterexample. -/
theorem span_encloses_children :
    (∀ (t ty : Term) (st sty : ByteSpan),
      Term.span t = some st → Term.span ty = some sty →
      st.wf → st.stop ≤ sty.start → sty.wf →
      Term.span (Term.Ann t ty) = some ⟨st.start, sty.stop⟩ ∧
      ByteSpan.encloses ⟨st.start, sty.stop⟩ st ∧
      ByteSpan.encloses ⟨st.start, sty.stop⟩ sty)
  ∧ (∀ (a b : Term) (sa sb : ByteSpan),
      Term.span a = some sa → Term.span b = some sb →
      sa.wf → sa.stop ≤ sb.start → sb.wf →
      Term.span (Term.FunArrow a b) = some ⟨sa.start, sb.stop⟩ ∧
      ByteSpan.encloses ⟨sa.start, sb.stop⟩ sa ∧
      ByteSpan.encloses ⟨sa.start, sb.stop⟩ sb)
  ∧ (∀ (head : Term) (args : List Term) (sh : ByteSpan),
      Term.span head = some sh → sh.wf → spansChainedFrom sh args → args ≠ [] →
      ∃ ls, Term.spanOfLast args = some ls ∧
        Term.span (Term.FunApp head args) = some ⟨sh.start, ls.stop⟩ ∧
        ByteSpan.encloses ⟨sh.start, ls.stop⟩ sh ∧
        ∀ t ∈ args, ∀ s, Term.span t = some s →
          ByteSpan.encloses ⟨sh.start, ls.stop⟩ s)
  ∧ (∀ (start : Nat) (params : List (List (ByteIndex × String) × Term))
        (body : Term) (sb : ByteSpan),
      Term.span body = some sb → sb.wf → start ≤ sb.start →
      (∀ pg ∈ params, ∀ s, Term.span pg.2 = some s →
        start ≤ s.start ∧ s.stop ≤ sb.start) →
      Term.span (Term.FunType start params body) = some ⟨start, sb.stop⟩ ∧
      ByteSpan.encloses ⟨start, sb.stop⟩ sb ∧
      ∀ pg ∈ params, ∀ s, Term.span pg.2 = some s →
        ByteSpan.encloses ⟨start, sb.stop⟩ s)
  ∧ (∀ (start : Nat) (params : List (List (ByteIndex × String) × Option Term))
        (body : Term) (sb : ByteSpan),
      Term.span body = some sb → sb.wf → start ≤ sb.start →
      (∀ pg ∈ params, ∀ a, pg.2 = some a → ∀ s, Term.span a = some s →
        start ≤ s.start ∧ s.stop ≤ sb.start) →
      Term.span (Term.FunIntro start params body) = some ⟨start, sb.stop⟩ ∧
      ByteSpan.encloses ⟨start, sb.stop⟩ sb ∧
      ∀ pg ∈ params, ∀ a, pg.2 = some a → ∀ s, Term.span a = some s →
        ByteSpan.encloses ⟨start, sb.stop⟩ s)
  ∧ (∀ (start : Nat) (items : List Item) (body : Term) (sb : ByteSpan),
      Term.span body = some sb → sb.wf → start ≤ sb.start →
      (∀ i ∈ items, ∀ s, Item.span i = some s →
        start ≤ s.start ∧ s.stop ≤ sb.start) →
      Term.span (Term.Let start items body) = some ⟨start, sb.stop⟩ ∧
      ByteSpan.encloses ⟨start, sb.stop⟩ sb ∧
      ∀ i ∈ items, ∀ s, Item.span i = some s →
        ByteSpan.encloses ⟨start, sb.stop⟩ s)
  ∧ (∀ (start : Nat) (c t e : Term) (se : ByteSpan),
      Term.span e = some se → se.wf → start ≤ se.start →
      (∀ s, Term.span c = some s → start ≤ s.start ∧ s.stop ≤ se.start) →
      (∀ s, Term.span t = some s → start ≤ s.start ∧ s.stop ≤ se.start) →
      Term.span (Term.If start c t e) = some ⟨start, se.stop⟩ ∧
      ByteSpan.encloses ⟨start, se.stop⟩ se ∧
      (∀ s, Term.span c = some s → ByteSpan.encloses ⟨start, se.stop⟩ s) ∧
      (∀ s, Term.span t = some s → ByteSpan.encloses ⟨start, se.stop⟩ s))
  ∧ (∀ lit : Literal,
      Term.span (Term.Literal lit) = some (Literal.span lit) ∧
      ByteSpan.encloses (Literal.span lit) (Literal.span lit))
  ∧ (∀ (p : Pattern) (ty : Term) (sp sty : ByteSpan),
      Pattern.span p = some sp → Term.span ty = some sty →
      sp.wf → sp.stop ≤ sty.start → sty.wf →
      Pattern.span (Pattern.Ann p ty) = some ⟨sp.start, sty.stop⟩ ∧
      ByteSpan.encloses ⟨sp.start, sty.stop⟩ sp ∧
      ByteSpan.encloses ⟨sp.start, sty.stop⟩ sty)
  ∧ (∀ lit : Literal,
      Pattern.span (Pattern.Literal lit) = some (Literal.span lit) ∧
      ByteSpan.encloses (Literal.span lit) (Literal.span lit))
  ∧ (∀ (start : Nat) (nm : String) (ann : Term) (sa : ByteSpan),
      Term.span ann = some sa → sa.wf → start ≤ sa.start →
      Item.span (Item.Declaration (start, nm) ann) = some ⟨start, sa.stop⟩ ∧
      ByteSpan.encloses ⟨start, sa.stop⟩ sa)
  ∧ (∀ (start : Nat) (nm : String)
        (params : List (List (ByteIndex × String) × Option Term))
        (ret : Option Term) (body : Term) (sb : ByteSpan),
      Term.span body = some sb → sb.wf → start ≤ sb.start →
      (∀ pg ∈ params, ∀ a, pg.2 = some a → ∀ s, Term.span a = some s →
        start ≤ s.start ∧ s.stop ≤ sb.start) →
      (∀ r, ret = some r → ∀ s, Term.span r = some s →
        start ≤ s.start ∧ s.stop ≤ sb.start) →
      Item.span (Item.Definition (start, nm) params ret body) = some ⟨start, sb.stop⟩ ∧
      ByteSpan.encloses ⟨start, sb.stop⟩ sb ∧
      (∀ pg ∈ params, ∀ a, pg.2 = some a → ∀ s, Term.span a = some s →
        ByteSpan.encloses ⟨start, sb.stop⟩ s) ∧
      (∀ r, ret = some r → ∀ s, Term.span r = some s →
        ByteSpan.encloses ⟨start, sb.stop⟩ s)) := by
  refine ⟨?_, ?_, ?_, ?_, ?_, ?_, ?_, ?_, ?_, ?_, ?_, ?_⟩
  · intro t ty st sty h1 h2 hwt hord hwty
    have w1 : st.start ≤ st.stop := hwt
    have w2 : sty.start ≤ sty.stop := hwty
    have hto : ByteSpan.to st sty = ⟨st.start, sty.stop⟩ := by
      unfold ByteSpan.to
      exact ByteSpan.new_of_le _ _ (by omega)
    exact ⟨by simp [Term.span, h1, h2, hto],
      ByteSpan.encloses_mk _ _ _ le_rfl (by omega),
      ByteSpan.encloses_mk _ _ _ (by omega) le_rfl⟩
  · intro a b sa sb h1 h2 hwa hord hwb
    have w1 : sa.start ≤ sa.stop := hwa
    have w2 : sb.start ≤ sb.stop := hwb
    have hto : ByteSpan.to sa sb = ⟨sa.start, sb.stop⟩ := by
      unfold ByteSpan.to
      exact ByteSpan.new_of_le _ _ (by omega)
    exact ⟨by simp [Term.span, h1, h2, hto],
      ByteSpan.encloses_mk _ _ _ le_rfl (by omega),
      ByteSpan.encloses_mk _ _ _ (by omega) le_rfl⟩
  · intro head args sh hhead hwf hchain hne
    obtain ⟨ls, hls, hlwf, hshls, hbounds⟩ := spanOfLast_chained args sh hchain hne
    have w1 : sh.start ≤ sh.stop := hwf
    have w2 : ls.start ≤ ls.stop := hlwf
    have hto : ByteSpan.to sh ls = ⟨sh.start, ls.stop⟩ := by
      unfold ByteSpan.to
      exact ByteSpan.new_of_le _ _ (by omega)
    refine ⟨ls, hls, by simp [Term.span, hhead, hls, hto],
      ByteSpan.encloses_mk _ _ _ le_rfl (by omega), ?_⟩
    intro t ht s hsp
    obtain ⟨b1, b2⟩ := hbounds t ht s hsp
    exact ByteSpan.encloses_mk _ _ _ (by omega) (by omega)
  · intro start params body sb hb hwf hstart hps
    have w : sb.start ≤ sb.stop := hwf
    have hnew : ByteSpan.new start sb.stop = ⟨start, sb.stop⟩ :=
      ByteSpan.new_of_le _ _ (by omega)
    refine ⟨by simp [Term.span, hb, hnew],
      ByteSpan.encloses_mk _ _ _ hstart le_rfl, ?_⟩
    intro pg hpg s hsp
    obtain ⟨b1, b2⟩ := hps pg hpg s hsp
    exact ByteSpan.encloses_mk _ _ _ b1 (by omega)
  · intro start params body sb hb hwf hstart hps
    have w : sb.start ≤ sb.stop := hwf
    have hnew : ByteSpan.new start sb.stop = ⟨start, sb.stop⟩ :=
      ByteSpan.new_of_le _ _ (by omega)
    refine ⟨by simp [Term.span, hb, hnew],
      ByteSpan.encloses_mk _ _ _ hstart le_rfl, ?_⟩
    intro pg hpg a ha s hsp
    obtain ⟨b1, b2⟩ := hps pg hpg a ha s hsp
    exact ByteSpan.encloses_mk _ _ _ b1 (by omega)
  · intro start items body sb hb hwf hstart his
    have w : sb.start ≤ sb.stop := hwf
    have hnew : ByteSpan.new start sb.stop = ⟨start, sb.stop⟩ :=
      ByteSpan.new_of_le _ _ (by omega)
    refine ⟨by simp [Term.span, hb, hnew],
      ByteSpan.encloses_mk _ _ _ hstart le_rfl, ?_⟩
    intro i hi s hsp
    obtain ⟨b1, b2⟩ := his i hi s hsp
    exact ByteSpan.encloses_mk _ _ _ b1 (by omega)
  · intro start c t e se he hwf hstart hc ht
    have w : se.start ≤ se.stop := hwf
    have hnew : ByteSpan.new start se.stop = ⟨start, se.stop⟩ :=
      ByteSpan.new_of_le _ _ (by omega)
    refine ⟨by simp [Term.span, he, hnew],
      ByteSpan.encloses_mk _ _ _ hstart le_rfl, ?_, ?_⟩
    · intro s hsp
      obtain ⟨b1, b2⟩ := hc s hsp
      exact ByteSpan.encloses_mk _ _ _ b1 (by omega)
    · intro s hsp
      obtain ⟨b1, b2⟩ := ht s hsp
      exact ByteSpan.encloses_mk _ _ _ b1 (by omega)
  · intro lit
    exact ⟨by simp [Term.span], le_rfl, le_rfl⟩
  · intro p ty sp sty h1 h2 hwp hord hwty
    have w1 : sp.start ≤ sp.stop := hwp
    have w2 : sty.start ≤ sty.stop := hwty
    have hto : ByteSpan.to sp sty = ⟨sp.start, sty.stop⟩ := by
      unfold ByteSpan.to
      exact ByteSpan.new_of_le _ _ (by omega)
    exact ⟨by simp [Pattern.span, h1, h2, hto],
      ByteSpan.encloses_mk _ _ _ le_rfl (by omega),
      ByteSpan.encloses_mk _ _ _ (by omega) le_rfl⟩
  · intro lit
    exact ⟨by simp [Pattern.span], le_rfl, le_rfl⟩
  · intro start nm ann sa ha hwf hstart
    have w : sa.start ≤ sa.stop := hwf
    have hnew : ByteSpan.new start sa.stop = ⟨start, sa.stop⟩ :=
      ByteSpan.new_of_le _ _ (by omega)
    exact ⟨by simp [Item.span, ha, hnew],
      ByteSpan.encloses_mk _ _ _ hstart le_rfl⟩
  · intro start nm params ret body sb hb hwf hstart hps hret
    have w : sb.start ≤ sb.stop := hwf
    have hnew : ByteSpan.new start sb.stop = ⟨start, sb.stop⟩ :=
      ByteSpan.new_of_le _ _ (by omega)
    refine ⟨by simp [Item.span, hb, hnew],
      ByteSpan.encloses_mk _ _ _ hstart le_rfl, ?_, ?_⟩
    · intro pg hpg a ha s hsp
      obtain ⟨b1, b2⟩ := hps pg hpg a ha s hsp
      exact ByteSpan.encloses_mk _ _ _ b1 (by omega)
    · intro r hr s hsp
      obtain ⟨b1, b2⟩ := hret r hr s hsp
      exact ByteSpan.encloses_mk _ _ _ b1 (by omega)

/-- C5 counterexample: two concrete nodes whose children's spans are
well formed and lie in source order at or after the node's start, yet
the node's span does not enclose them: a `Parens` node (the stored span
is returned unchanged, ignoring the child), and a `Where` node (the
stored end index does not bound the item list). -/
theorem span_enclosure_counterexample :
    (Term.span (Term.Parens ⟨0, 1⟩ (Term.Hole ⟨5, 9⟩)) = some ⟨0, 1⟩
      ∧ Term.span (Term.Hole ⟨5, 9⟩) = some ⟨5, 9⟩
      ∧ ByteSpan.wf ⟨5, 9⟩
      ∧ (0 : Nat) ≤ 5
      ∧ ¬ ByteSpan.encloses ⟨0, 1⟩ ⟨5, 9⟩)
  ∧ (Term.span (Term.Where (Term.Hole ⟨0, 1⟩) [Item.Error ⟨2, 100⟩] 5) = some ⟨0, 5⟩
      ∧ Item.span (Item.Error ⟨2, 100⟩) = some ⟨2, 100⟩
      ∧ ByteSpan.wf ⟨2, 100⟩
      ∧ (1 : Nat) ≤ 2
      ∧ ¬ ByteSpan.encloses ⟨0, 5⟩ ⟨2, 100⟩) := by
  refine ⟨⟨?_, ?_, ?_, ?_, ?_⟩, ⟨?_, ?_, ?_, ?_, ?_⟩⟩
  · simp [Term.span]
  · simp [Term.span]
  · decide
  · decide
  · decide
  · simp [Term.span, ByteSpan.new]
  · simp [Item.span]
  · decide
  · decide
  · decide

/-- C5 witness: the amended enclosure theorem evaluated on concrete
nodes of each covered shape, discharging the source-order hypotheses
there. -/
theorem span_encloses_children_witness :
    (Term.span (Term.Ann (Term.Hole ⟨1, 2⟩) (Term.Hole ⟨3, 4⟩)) = some ⟨1, 4⟩
      ∧ ByteSpan.encloses ⟨1, 4⟩ ⟨1, 2⟩ ∧ ByteSpan.encloses ⟨1, 4⟩ ⟨3, 4⟩)
  ∧ (Term.span (Term.FunArrow (Term.Hole ⟨1, 2⟩) (Term.Hole ⟨3, 4⟩)) = some ⟨1, 4⟩
      ∧ ByteSpan.encloses ⟨1, 4⟩ ⟨1, 2⟩ ∧ ByteSpan.encloses ⟨1, 4⟩ ⟨3, 4⟩)
  ∧ (∃ ls, Term.spanOfLast [Term.Hole ⟨2, 3⟩] = some ls
      ∧ Term.span (Term.FunApp (Term.Hole ⟨0, 1⟩) [Term.Hole ⟨2, 3⟩]) = some ⟨0, ls.stop⟩
      ∧ ByteSpan.encloses ⟨0, ls.stop⟩ ⟨0, 1⟩
      ∧ ∀ t ∈ [Term.Hole ⟨2, 3⟩], ∀ s, Term.span t = some s →
          ByteSpan.encloses ⟨0, ls.stop⟩ s)
  ∧ (Term.span (Term.FunType 0 [] (Term.Hole ⟨4, 5⟩)) = some ⟨0, 5⟩
      ∧ ByteSpan.encloses ⟨0, 5⟩ ⟨4, 5⟩
      ∧ ∀ pg ∈ ([] : List (List (ByteIndex × String) × Term)), ∀ s,
          Term.span pg.2 = some s → ByteSpan.encloses ⟨0, 5⟩ s)
  ∧ (Term.span (Term.FunIntro 0 [] (Term.Hole ⟨4, 5⟩)) = some ⟨0, 5⟩
      ∧ ByteSpan.encloses ⟨0, 5⟩ ⟨4, 5⟩
      ∧ ∀ pg ∈ ([] : List (List (ByteIndex × String) × Option Term)), ∀ a,
          pg.2 = some a → ∀ s, Term.span a = some s → ByteSpan.encloses ⟨0, 5⟩ s)
  ∧ (Term.span (Term.Let 0 [Item.Error ⟨1, 2⟩] (Term.Hole ⟨3, 4⟩)) = some ⟨0, 4⟩
      ∧ ByteSpan.encloses ⟨0, 4⟩ ⟨3, 4⟩
      ∧ ∀ i ∈ [Item.Error ⟨1, 2⟩], ∀ s, Item.span i = some s →
          ByteSpan.encloses ⟨0, 4⟩ s)
  ∧ (Term.span (Term.If 0 (Term.Hole ⟨1, 2⟩) (Term.Hole ⟨3, 4⟩) (Term.Hole ⟨5, 6⟩)) =
        some ⟨0, 6⟩
      ∧ ByteSpan.encloses ⟨0, 6⟩ ⟨5, 6⟩
      ∧ (∀ s, Term.span (Term.Hole ⟨1, 2⟩) = some s → ByteSpan.encloses ⟨0, 6⟩ s)
      ∧ (∀ s, Term.span (Term.Hole ⟨3, 4⟩) = some s → ByteSpan.encloses ⟨0, 6⟩ s))
  ∧ (Term.span (Term.Literal (Literal.Int ⟨7, 8⟩ 42 IntFormat.Dec)) =
        some (Literal.span (Literal.Int ⟨7, 8⟩ 42 IntFormat.Dec))
      ∧ ByteSpan.encloses (Literal.span (Literal.Int ⟨7, 8⟩ 42 IntFormat.Dec))
          (Literal.span (Literal.Int ⟨7, 8⟩ 42 IntFormat.Dec)))
  ∧ (Pattern.span (Pattern.Ann (Pattern.Name ⟨1, 2⟩ ("x") none) (Term.Hole ⟨3, 4⟩)) =
        some ⟨1, 4⟩
      ∧ ByteSpan.encloses ⟨1, 4⟩ ⟨1, 2⟩ ∧ ByteSpan.encloses ⟨1, 4⟩ ⟨3, 4⟩)
  ∧ (Item.span (Item.Declaration (0, "foo") (Term.Hole ⟨2, 3⟩)) = some ⟨0, 3⟩
      ∧ ByteSpan.encloses ⟨0, 3⟩ ⟨2, 3⟩)
  ∧ (Item.span (Item.Definition (0, "foo") [] none (Term.Hole ⟨2, 3⟩)) = some ⟨0, 3⟩
      ∧ ByteSpan.encloses ⟨0, 3⟩ ⟨2, 3⟩
      ∧ (∀ pg ∈ ([] : List (List (ByteIndex × String) × Option Term)), ∀ a,
          pg.2 = some a → ∀ s, Term.span a = some s → ByteSpan.encloses ⟨0, 3⟩ s)
      ∧ (∀ r, (none : Option Term) = some r → ∀ s, Term.span r = some s →
          ByteSpan.encloses ⟨0, 3⟩ s)) := by
  refine ⟨?_, ?_, ?_, ?_, ?_, ?_, ?_, ?_, ?_, ?_, ?_⟩
  · exact span_encloses_children.1 (Term.Hole ⟨1, 2⟩) (Term.Hole ⟨3, 4⟩) ⟨1, 2⟩ ⟨3, 4⟩
      (by simp [Term.span]) (by simp [Term.span]) (by decide) (by decide) (by decide)
  · exact span_encloses_children.2.1 (Term.Hole ⟨1, 2⟩) (Term.Hole ⟨3, 4⟩) ⟨1, 2⟩ ⟨3, 4⟩
      (by simp [Term.span]) (by simp [Term.span]) (by decide) (by decide) (by decide)
  · exact span_encloses_children.2.2.1 (Term.Hole ⟨0, 1⟩) [Term.Hole ⟨2, 3⟩] ⟨0, 1⟩
      (by simp [Term.span]) (by decide)
      ⟨⟨2, 3⟩, by simp [Term.span], by decide, by decide, trivial⟩ (by simp)
  · exact span_encloses_children.2.2.2.1 0 [] (Term.Hole ⟨4, 5⟩) ⟨4, 5⟩
      (by simp [Term.span]) (by decide) (by decide)
      (fun pg hpg => absurd hpg (List.not_mem_nil _))
  · exact span_encloses_children.2.2.2.2.1 0 [] (Term.Hole ⟨4, 5⟩) ⟨4, 5⟩
      (by simp [Term.span]) (by decide) (by decide)
      (fun pg hpg => absurd hpg (List.not_mem_nil _))
  · exact span_encloses_children.2.2.2.2.2.1 0 [Item.Error ⟨1, 2⟩] (Term.Hole ⟨3, 4⟩)
      ⟨3, 4⟩ (by simp [Term.span]) (by decide) (by decide)
      (by intro i hi s hs
          simp at hi
          subst hi
          simp [Item.span] at hs
          subst hs
          decide)
  · exact span_encloses_children.2.2.2.2.2.2.1 0 (Term.Hole ⟨1, 2⟩) (Term.Hole ⟨3, 4⟩)
      (Term.Hole ⟨5, 6⟩) ⟨5, 6⟩ (by simp [Term.span]) (by decide) (by decide)
      (by intro s hs
          simp [Term.span] at hs
          subst hs
          decide)
      (by intro s hs
          simp [Term.span] at hs
          subst hs
          decide)
  · exact span_encloses_children.2.2.2.2.2.2.2.1 (Literal.Int ⟨7, 8⟩ 42 IntFormat.Dec)
  · exact span_encloses_children.2.2.2.2.2.2.2.2.1 (Pattern.Name ⟨1, 2⟩ ("x") none)
      (Term.Hole ⟨3, 4⟩) ⟨1, 2⟩ ⟨3, 4⟩ (by simp [Pattern.span]) (by simp [Term.span])
      (by decide) (by decide) (by decide)
  · exact span_encloses_children.2.2.2.2.2.2.2.2.2.2.1 0 ("foo") (Term.Hole ⟨2, 3⟩)
      ⟨2, 3⟩ (by simp [Term.span]) (by decide) (by decide)
  · exact span_encloses_children.2.2.2.2.2.2.2.2.2.2.2 0 ("foo") [] none
      (Term.Hole ⟨2, 3⟩) ⟨2, 3⟩ (by simp [Term.span]) (by decide) (by decide)
      (fun pg hpg => absurd hpg (List.not_mem_nil _))
      (by intro r hr
          simp at hr)
